import Mathlib

/-!
Verification of the `querystring` helper library (files `query.py` and
`parsers.py`): typed accessors over a URL query-parameter mapping, plus a
datetime string parser.

Python strings are modelled as `List Char` (ASCII fragment: the library's
delimiters, format directives and truthy/falsy words are all ASCII).
Fallible Python calls are modelled with `Except PyErr`; an uncaught
`ValueError` is an `.error` result.  The query mapping `request.GET` is
modelled as a function `Str → Option Str` (Django's `QueryDict.get`).
-/

abbrev Str := List Char

/-- A Python `ValueError` (the only exception class this library raises or
catches). -/
inductive PyErr where
  | valueError
deriving DecidableEq, Repr

instance {ε α : Type} [DecidableEq ε] [DecidableEq α] : DecidableEq (Except ε α) := fun a b =>
  match a, b with
  | .ok x, .ok y =>
      if h : x = y then .isTrue (by rw [h]) else .isFalse (fun hh => by cases hh; exact h rfl)
  | .error x, .error y =>
      if h : x = y then .isTrue (by rw [h]) else .isFalse (fun hh => by cases hh; exact h rfl)
  | .ok _, .error _ => .isFalse (fun hh => by cases hh)
  | .error _, .ok _ => .isFalse (fun hh => by cases hh)

/-- ASCII whitespace recognised by Python's `str.strip()`. -/
def isSpaceChar (c : Char) : Bool :=
  c = ' ' || c = '\t' || c = '\n' || c = '\x0d' || c = '\x0b' || c = '\x0c'

/-- Python `str.strip()`: drop whitespace from both ends. -/
def pyStrip (s : Str) : Str :=
  ((s.dropWhile isSpaceChar).reverse.dropWhile isSpaceChar).reverse

/-- Python `str.lower()` on the ASCII fragment. -/
def pyLower (s : Str) : Str :=
  s.map fun c => if 'A' ≤ c ∧ c ≤ 'Z' then Char.ofNat (c.toNat + 32) else c

def isDigitChar (c : Char) : Bool :=
  c = '0' || c = '1' || c = '2' || c = '3' || c = '4' ||
  c = '5' || c = '6' || c = '7' || c = '8' || c = '9'

def digitVal (c : Char) : Nat :=
  if c = '0' then 0 else if c = '1' then 1 else if c = '2' then 2 else
  if c = '3' then 3 else if c = '4' then 4 else if c = '5' then 5 else
  if c = '6' then 6 else if c = '7' then 7 else if c = '8' then 8 else 9

def digitChar : Nat → Char
  | 0 => '0' | 1 => '1' | 2 => '2' | 3 => '3' | 4 => '4'
  | 5 => '5' | 6 => '6' | 7 => '7' | 8 => '8' | _ => '9'

/-- First occurrence of `sep` in `s`: `some (before, after)` where `s =
before ++ sep ++ after` at the earliest position, `none` if absent.  Models
the search behind Python's `sep in s` and `s.split(sep)`. -/
def findSub (sep : Str) : Str → Option (Str × Str)
  | [] => if sep = [] then some ([], []) else none
  | c :: rest =>
    if sep.isPrefixOf (c :: rest) then some ([], (c :: rest).drop sep.length)
    else (findSub sep rest).map fun p => (c :: p.1, p.2)

/-- Python `sep in s` (substring containment). -/
def pyContains (sep s : Str) : Bool :=
  (findSub sep s).isSome

/-- Split on every occurrence of `sep`; `fuel` bounds the recursion (each
step consumes at least one character of `s` when `sep` is nonempty, so
`s.length + 1` is always enough). -/
def pySplitAux (sep : Str) : Nat → Str → List Str
  | 0, s => [s]
  | fuel + 1, s =>
    match findSub sep s with
    | none => [s]
    | some (pre, post) => pre :: pySplitAux sep fuel post

/-- Python `s.split(sep)` for a nonempty separator. -/
def pySplit (sep s : Str) : List Str :=
  pySplitAux sep (s.length + 1) s

/-- Python `s.split(sep)` as a fallible call: an empty separator raises
`ValueError: empty separator`. -/
def pySplitE (sep s : Str) : Except PyErr (List Str) :=
  if sep = [] then .error .valueError else .ok (pySplit sep s)

/-- Digits of an integer literal after the first one, allowing a single
underscore between two digits (Python 3 `int()` grammar); accumulates the
base-10 value. -/
def digitsRun : Nat → Str → Option Nat
  | acc, [] => some acc
  | acc, '_' :: c :: rest =>
      if isDigitChar c then digitsRun (acc * 10 + digitVal c) rest else none
  | acc, c :: rest =>
      if isDigitChar c then digitsRun (acc * 10 + digitVal c) rest else none

/-- An unsigned run of digits, at least one, underscores only between
digits. -/
def startDigits : Str → Option Nat
  | [] => none
  | c :: rest => if isDigitChar c then digitsRun (digitVal c) rest else none

/-- Python `int(s)` on the ASCII fragment: strip whitespace, optional sign,
base-10 digits (no fractional part); `none` models a raised `ValueError`. -/
def pyInt (s : Str) : Option Int :=
  match pyStrip s with
  | '+' :: rest => (startDigits rest).map Int.ofNat
  | '-' :: rest => (startDigits rest).map fun n => -(Int.ofNat n)
  | rest => (startDigits rest).map Int.ofNat

/-! ## The query-parameter mapping -/

/-- `request.GET.get(name)`: the query mapping is a partial map from
parameter names to raw string values. -/
abbrev Req := Str → Option Str

/-! ## `query.py`: the simple accessors -/

/-- `get_str(request, name, default)`: return the raw value if the key is
present, the caller-supplied default otherwise.  `.inl` is a present
(converted) value, `.inr` is the default object returned verbatim. -/
def get_str {α : Type} (request : Req) (name : Str) (default : α) : Str ⊕ α :=
  match request name with
  | none => .inr default
  | some value => .inl value

def truthyWords : List Str :=
  ["true".toList, "t".toList, "yes".toList, "y".toList, "1".toList]

def falsyWords : List Str :=
  ["false".toList, "f".toList, "no".toList, "n".toList, "0".toList]

/-- `get_boolean(request, name, default)`: case-insensitive match of the
raw value against the truthy and falsy word sets; any other present value
yields the default. -/
def get_boolean {α : Type} (request : Req) (name : Str) (default : α) : Bool ⊕ α :=
  match request name with
  | none => .inr default
  | some value =>
    if truthyWords.contains (pyLower value) then .inl true
    else if falsyWords.contains (pyLower value) then .inl false
    else .inr default

/-- `get_int(request, name, default, raise_on_value_error)`: `int(value)`;
on `ValueError` either re-raise (strict tier) or return the default. -/
def get_int {α : Type} (request : Req) (name : Str) (default : α)
    (raise_on_value_error : Bool) : Except PyErr (Int ⊕ α) :=
  match request name with
  | none => .ok (.inr default)
  | some value =>
    match pyInt value with
    | some n => .ok (.inl n)
    | none => if raise_on_value_error then .error .valueError else .ok (.inr default)

/-- The loop body of `get_list`: strip each piece, skip empty pieces,
convert via the caller-supplied element type, on `ValueError` either
re-raise (strict tier) or skip the piece; collect the successes in order. -/
def processItems {β : Type} (type : Str → Except PyErr β) (raise_on_value_error : Bool) :
    List Str → Except PyErr (List β)
  | [] => .ok []
  | item :: items =>
    let stripped := pyStrip item
    if stripped = [] then processItems type raise_on_value_error items
    else
      match type stripped with
      | .error e =>
          if raise_on_value_error then .error e
          else processItems type raise_on_value_error items
      | .ok v => (processItems type raise_on_value_error items).map fun l => v :: l

/-- `get_list(request, name, default, *, type, delim, raise_on_value_error)`:
split the raw value on `delim` (the split itself raises on an empty
delimiter, outside any `try`), then run the conversion loop. -/
def get_list {α β : Type} (request : Req) (name : Str) (default : α)
    (type : Str → Except PyErr β) (delim : Str) (raise_on_value_error : Bool) :
    Except PyErr (List β ⊕ α) :=
  match request name with
  | none => .ok (.inr default)
  | some value =>
    match pySplitE delim value with
    | .error e => .error e
    | .ok items => (processItems type raise_on_value_error items).map .inl

/-! ## `parsers.py`: the datetime parser

A calendar timestamp `year-month-day hour:minute:second` plus an awareness
flag: `aware = true` models a timestamp carrying a timezone marker
(`django.utils.timezone.make_aware` reinterprets the naive wall-clock
fields as local time, leaving the six calendar fields unchanged). -/

structure PyDatetime where
  year : Nat
  month : Nat
  day : Nat
  hour : Nat
  minute : Nat
  second : Nat
  aware : Bool
deriving DecidableEq, Repr

/-- At most `k - 1` further digits after a first mandatory one; greedy, as
in `strptime`'s `\d{1,k}` matching when the next format character is not a
digit. -/
def readDigitsAux : Nat → Nat → Str → Nat × Str
  | 0, acc, s => (acc, s)
  | _ + 1, acc, [] => (acc, [])
  | k + 1, acc, c :: s =>
    if isDigitChar c then readDigitsAux k (acc * 10 + digitVal c) s else (acc, c :: s)

/-- Read one to `k` digits greedily; `none` when the input does not start
with a digit. -/
def readNum (k : Nat) : Str → Option (Nat × Str)
  | [] => none
  | c :: s => if isDigitChar c then some (readDigitsAux (k - 1) (digitVal c) s) else none

/-- One pass of `datetime.strptime` over the format string: `%Y` reads up
to four digits into the year, `%m`/`%d`/`%H`/`%M`/`%S` read up to two
digits into their fields, `%%` matches a literal percent, any other
directive is unsupported (raises), and every other format character must
match the input literally; leftover input is an error. -/
def strptimeRun : Str → Str → PyDatetime → Option PyDatetime
  | [], [], f => some f
  | [], _ :: _, _ => none
  | '%' :: 'Y' :: fmt, s, f =>
      (readNum 4 s).bind fun p => strptimeRun fmt p.2 { f with year := p.1 }
  | '%' :: 'm' :: fmt, s, f =>
      (readNum 2 s).bind fun p => strptimeRun fmt p.2 { f with month := p.1 }
  | '%' :: 'd' :: fmt, s, f =>
      (readNum 2 s).bind fun p => strptimeRun fmt p.2 { f with day := p.1 }
  | '%' :: 'H' :: fmt, s, f =>
      (readNum 2 s).bind fun p => strptimeRun fmt p.2 { f with hour := p.1 }
  | '%' :: 'M' :: fmt, s, f =>
      (readNum 2 s).bind fun p => strptimeRun fmt p.2 { f with minute := p.1 }
  | '%' :: 'S' :: fmt, s, f =>
      (readNum 2 s).bind fun p => strptimeRun fmt p.2 { f with second := p.1 }
  | '%' :: '%' :: fmt, s, f =>
      match s with
      | '%' :: s => strptimeRun fmt s f
      | _ => none
  | '%' :: _ :: _, _, _ => none
  | '%' :: [], _, _ => none
  | c :: fmt, s, f =>
      match s with
      | c' :: s => if c = c' then strptimeRun fmt s f else none
      | [] => none

def isLeapYear (y : Nat) : Bool :=
  (y % 4 = 0 && y % 100 ≠ 0) || y % 400 = 0

def daysInMonth (y m : Nat) : Nat :=
  if m = 2 then (if isLeapYear y then 29 else 28)
  else if m = 4 || m = 6 || m = 9 || m = 11 then 30
  else 31

/-- The range checks `datetime.datetime` enforces when `strptime` builds
the timestamp. -/
def validFields (f : PyDatetime) : Bool :=
  1 ≤ f.year && f.year ≤ 9999 &&
  1 ≤ f.month && f.month ≤ 12 &&
  1 ≤ f.day && f.day ≤ daysInMonth f.year f.month &&
  f.hour ≤ 23 && f.minute ≤ 59 && f.second ≤ 59

/-- `datetime.datetime.strptime(value, format)`: missing fields default to
1900-01-01 00:00:00; the result is naive; `none` models a raised
`ValueError`. -/
def strptime (value format : Str) : Option PyDatetime :=
  (strptimeRun format value ⟨1900, 1, 1, 0, 0, 0, false⟩).bind fun f =>
    if validFields f then some f else none

/-- `parsed.replace(hour=h, minute=mi, second=s)`. -/
def pyReplaceTime (p : PyDatetime) (h mi s : Nat) : PyDatetime :=
  { p with hour := h, minute := mi, second := s }

/-- `django.utils.timezone.make_aware(parsed)`: attach the local timezone,
calendar fields unchanged. -/
def make_aware (p : PyDatetime) : PyDatetime :=
  { p with aware := true }

/-- `parser_datetime(value, format, *, align, aware)` from `parsers.py`:
strict parse (a mismatch raises `ValueError`), then align the time of day
to 00:00:00 (`align == "start"`) or 23:59:59 (`align == "end"`), then
optionally make the timestamp timezone-aware. -/
def parser_datetime (value format : Str) (align : Option Str) (aware : Bool) :
    Except PyErr PyDatetime :=
  match strptime value format with
  | none => .error .valueError
  | some parsed =>
    let parsed := if align = some "start".toList then pyReplaceTime parsed 0 0 0
                  else if align = some "end".toList then pyReplaceTime parsed 23 59 59
                  else parsed
    let parsed := if aware then make_aware parsed else parsed
    .ok parsed

/-! ## `query.py`: the datetime accessors -/

/-- `get_datetime(request, name, default, *, format, align, aware,
raise_on_value_error)`. -/
def get_datetime {α : Type} (request : Req) (name : Str) (default : α)
    (format : Str) (align : Option Str) (aware : Bool) (raise_on_value_error : Bool) :
    Except PyErr (PyDatetime ⊕ α) :=
  match request name with
  | none => .ok (.inr default)
  | some value =>
    match parser_datetime value format align aware with
    | .ok dt => .ok (.inl dt)
    | .error e => if raise_on_value_error then .error e else .ok (.inr default)

/-- Result shape of `get_datetime_range`: a missing key returns the default
object itself; otherwise a pair is returned whose halves are each either a
parsed timestamp (`.inl`) or the default object (`.inr`). -/
inductive RangeResult (α : Type) where
  | missing : α → RangeResult α
  | pair : PyDatetime ⊕ α → PyDatetime ⊕ α → RangeResult α
deriving DecidableEq, Repr

/-- `get_datetime_range(request, name, default, *, format, delim, align,
aware, raise_on_value_error)`.  Mirrors the source control flow exactly:
the `delim not in value` test, then `start_value, end_value =
value.split(delim)` OUTSIDE any `try` (unpacking a list whose length is
not 2 raises `ValueError` uncaught, hence the bare `.error` on the
wildcard branch), then each half parsed inside its own `try`.  The source
computes a local `_align = "start" if align else None` (and later
`_align = "end" if align else None`) but never uses it: both parse calls
receive the original `align`, which is why `align` is passed unchanged
below. -/
def get_datetime_range {α : Type} (request : Req) (name : Str) (default : α)
    (format delim : Str) (align : Option Str) (aware : Bool)
    (raise_on_value_error : Bool) : Except PyErr (RangeResult α) :=
  match request name with
  | none => .ok (.missing default)
  | some value =>
    if pyContains delim value then
      match pySplitE delim value with
      | .error e => .error e
      | .ok items =>
        match items with
        | [start_value, end_value] =>
          match parser_datetime start_value format align aware with
          | .error e =>
              if raise_on_value_error then .error e
              else .ok (.pair (.inr default) (.inr default))
          | .ok start =>
            match parser_datetime end_value format align aware with
            | .error e =>
                if raise_on_value_error then .error e
                else .ok (.pair (.inr default) (.inr default))
            | .ok stop => .ok (.pair (.inl start) (.inl stop))
        | _ => .error .valueError
    else
      if raise_on_value_error then .error .valueError
      else .ok (.pair (.inr default) (.inr default))

/-! ## Formatting (the inverse direction, for the round-trip property)

`datetime.strftime` renders each numeric field zero-padded: `%Y` to four
digits, the two-digit directives to two.  `pad4`/`pad2` spell that
rendering out digit by digit. -/

def pad2 (n : Nat) : Str :=
  [digitChar (n / 10 % 10), digitChar (n % 10)]

def pad4 (n : Nat) : Str :=
  [digitChar (n / 1000 % 10), digitChar (n / 100 % 10),
   digitChar (n / 10 % 10), digitChar (n % 10)]

/-- `dt.strftime(format)` for the directives this library uses; other
characters are emitted literally. -/
def strftime (dt : PyDatetime) : Str → Str
  | [] => []
  | '%' :: 'Y' :: fmt => pad4 dt.year ++ strftime dt fmt
  | '%' :: 'm' :: fmt => pad2 dt.month ++ strftime dt fmt
  | '%' :: 'd' :: fmt => pad2 dt.day ++ strftime dt fmt
  | '%' :: 'H' :: fmt => pad2 dt.hour ++ strftime dt fmt
  | '%' :: 'M' :: fmt => pad2 dt.minute ++ strftime dt fmt
  | '%' :: 'S' :: fmt => pad2 dt.second ++ strftime dt fmt
  | '%' :: '%' :: fmt => '%' :: strftime dt fmt
  | '%' :: c :: fmt => '%' :: c :: strftime dt fmt
  | c :: fmt => c :: strftime dt fmt

/-! ## Concrete helpers used by the theorems below -/

/-- The library's default datetime format `"%Y-%m-%d %H:%M:%S"`. -/
def fmtDefault : Str :=
  ['%', 'Y', '-', '%', 'm', '-', '%', 'd', ' ', '%', 'H', ':', '%', 'M', ':', '%', 'S']

/-- A request whose query string is empty. -/
def reqEmpty : Req := fun _ => none

/-- A request carrying the value `v` under every name. -/
def mkReq (v : Str) : Req := fun _ => some v

/-- Python's `int` builtin passed as the list accessor's element type. -/
def pyIntConv (s : Str) : Except PyErr Int :=
  match pyInt s with
  | some n => .ok n
  | none => .error .valueError

/-- Python's `bool` builtin passed as the list accessor's element type:
the truthiness of a string is its non-emptiness, and `bool(s)` never
raises. -/
def pyBoolConv (s : Str) : Except PyErr Bool :=
  .ok (decide (s ≠ []))

/-- The timestamp 2024-03-05 12:30:45 (naive), used to exhibit the failure
of the unrestricted round-trip property. -/
def dtSample : PyDatetime := ⟨2024, 3, 5, 12, 30, 45, false⟩

/-! ## Digit and number-reading lemmas -/

theorem isDigit_digitChar (x : Nat) (hx : x < 10) : isDigitChar (digitChar x) = true := by
  interval_cases x <;> rfl

theorem digitVal_digitChar (x : Nat) (hx : x < 10) : digitVal (digitChar x) = x := by
  interval_cases x <;> rfl

theorem readDigitsAux_digit (k acc x : Nat) (hx : x < 10) (s : Str) :
    readDigitsAux (k + 1) acc (digitChar x :: s) = readDigitsAux k (acc * 10 + x) s := by
  simp [readDigitsAux, isDigit_digitChar x hx, digitVal_digitChar x hx]

theorem readNum_pad4 (n : Nat) (hn : n ≤ 9999) (rest : Str) :
    readNum 4 (pad4 n ++ rest) = some (n, rest) := by
  have ha : n / 1000 % 10 < 10 := Nat.mod_lt _ (by omega)
  have hb : n / 100 % 10 < 10 := Nat.mod_lt _ (by omega)
  have hc : n / 10 % 10 < 10 := Nat.mod_lt _ (by omega)
  have hd : n % 10 < 10 := Nat.mod_lt _ (by omega)
  show readNum 4 (digitChar (n / 1000 % 10) :: digitChar (n / 100 % 10) ::
      digitChar (n / 10 % 10) :: digitChar (n % 10) :: rest) = some (n, rest)
  rw [show readNum 4 (digitChar (n / 1000 % 10) :: digitChar (n / 100 % 10) ::
      digitChar (n / 10 % 10) :: digitChar (n % 10) :: rest)
      = some (readDigitsAux 3 (digitVal (digitChar (n / 1000 % 10)))
          (digitChar (n / 100 % 10) :: digitChar (n / 10 % 10) :: digitChar (n % 10) :: rest))
      from by simp [readNum, isDigit_digitChar _ ha]]
  rw [digitVal_digitChar _ ha]
  rw [readDigitsAux_digit 2 _ _ hb, readDigitsAux_digit 1 _ _ hc, readDigitsAux_digit 0 _ _ hd]
  show some (((n / 1000 % 10 * 10 + n / 100 % 10) * 10 + n / 10 % 10) * 10 + n % 10, rest)
      = some (n, rest)
  congr 2
  omega

theorem readNum_pad2 (n : Nat) (hn : n ≤ 99) (rest : Str) :
    readNum 2 (pad2 n ++ rest) = some (n, rest) := by
  have ha : n / 10 % 10 < 10 := Nat.mod_lt _ (by omega)
  have hd : n % 10 < 10 := Nat.mod_lt _ (by omega)
  show readNum 2 (digitChar (n / 10 % 10) :: digitChar (n % 10) :: rest) = some (n, rest)
  rw [show readNum 2 (digitChar (n / 10 % 10) :: digitChar (n % 10) :: rest)
      = some (readDigitsAux 1 (digitVal (digitChar (n / 10 % 10)))
          (digitChar (n % 10) :: rest))
      from by simp [readNum, isDigit_digitChar _ ha]]
  rw [digitVal_digitChar _ ha]
  rw [readDigitsAux_digit 0 _ _ hd]
  show some ((n / 10 % 10) * 10 + n % 10, rest) = some (n, rest)
  congr 2
  omega

/-! ## Stepping `strptimeRun` through the default format -/

theorem strptimeRun_Y_pad (fmt : Str) (n : Nat) (hn : n ≤ 9999) (rest : Str) (f : PyDatetime) :
    strptimeRun ('%' :: 'Y' :: fmt) (pad4 n ++ rest) f = strptimeRun fmt rest { f with year := n } := by
  rw [show strptimeRun ('%' :: 'Y' :: fmt) (pad4 n ++ rest) f
      = (readNum 4 (pad4 n ++ rest)).bind fun p => strptimeRun fmt p.2 { f with year := p.1 }
      from rfl, readNum_pad4 n hn]
  rfl

theorem strptimeRun_m_pad (fmt : Str) (n : Nat) (hn : n ≤ 99) (rest : Str) (f : PyDatetime) :
    strptimeRun ('%' :: 'm' :: fmt) (pad2 n ++ rest) f = strptimeRun fmt rest { f with month := n } := by
  rw [show strptimeRun ('%' :: 'm' :: fmt) (pad2 n ++ rest) f
      = (readNum 2 (pad2 n ++ rest)).bind fun p => strptimeRun fmt p.2 { f with month := p.1 }
      from rfl, readNum_pad2 n hn]
  rfl

theorem strptimeRun_d_pad (fmt : Str) (n : Nat) (hn : n ≤ 99) (rest : Str) (f : PyDatetime) :
    strptimeRun ('%' :: 'd' :: fmt) (pad2 n ++ rest) f = strptimeRun fmt rest { f with day := n } := by
  rw [show strptimeRun ('%' :: 'd' :: fmt) (pad2 n ++ rest) f
      = (readNum 2 (pad2 n ++ rest)).bind fun p => strptimeRun fmt p.2 { f with day := p.1 }
      from rfl, readNum_pad2 n hn]
  rfl

theorem strptimeRun_H_pad (fmt : Str) (n : Nat) (hn : n ≤ 99) (rest : Str) (f : PyDatetime) :
    strptimeRun ('%' :: 'H' :: fmt) (pad2 n ++ rest) f = strptimeRun fmt rest { f with hour := n } := by
  rw [show strptimeRun ('%' :: 'H' :: fmt) (pad2 n ++ rest) f
      = (readNum 2 (pad2 n ++ rest)).bind fun p => strptimeRun fmt p.2 { f with hour := p.1 }
      from rfl, readNum_pad2 n hn]
  rfl

theorem strptimeRun_M_pad (fmt : Str) (n : Nat) (hn : n ≤ 99) (rest : Str) (f : PyDatetime) :
    strptimeRun ('%' :: 'M' :: fmt) (pad2 n ++ rest) f = strptimeRun fmt rest { f with minute := n } := by
  rw [show strptimeRun ('%' :: 'M' :: fmt) (pad2 n ++ rest) f
      = (readNum 2 (pad2 n ++ rest)).bind fun p => strptimeRun fmt p.2 { f with minute := p.1 }
      from rfl, readNum_pad2 n hn]
  rfl

theorem strptimeRun_S_pad (fmt : Str) (n : Nat) (hn : n ≤ 99) (rest : Str) (f : PyDatetime) :
    strptimeRun ('%' :: 'S' :: fmt) (pad2 n ++ rest) f = strptimeRun fmt rest { f with second := n } := by
  rw [show strptimeRun ('%' :: 'S' :: fmt) (pad2 n ++ rest) f
      = (readNum 2 (pad2 n ++ rest)).bind fun p => strptimeRun fmt p.2 { f with second := p.1 }
      from rfl, readNum_pad2 n hn]
  rfl

theorem strptimeRun_dash (fmt s : Str) (f : PyDatetime) :
    strptimeRun ('-' :: fmt) ('-' :: s) f = strptimeRun fmt s f := rfl

theorem strptimeRun_space (fmt s : Str) (f : PyDatetime) :
    strptimeRun (' ' :: fmt) (' ' :: s) f = strptimeRun fmt s f := rfl

theorem strptimeRun_colon (fmt s : Str) (f : PyDatetime) :
    strptimeRun (':' :: fmt) (':' :: s) f = strptimeRun fmt s f := rfl

theorem strptimeRun_default_format (y mo d h mi s : Nat)
    (hy : y ≤ 9999) (hmo : mo ≤ 99) (hd : d ≤ 99) (hh : h ≤ 99) (hmi : mi ≤ 99) (hs : s ≤ 99)
    (f : PyDatetime) :
    strptimeRun fmtDefault
      (pad4 y ++ '-' :: (pad2 mo ++ '-' :: (pad2 d ++ ' ' :: (pad2 h ++ ':' ::
        (pad2 mi ++ ':' :: (pad2 s ++ []))))))
      f = some ⟨y, mo, d, h, mi, s, f.aware⟩ := by
  unfold fmtDefault
  rw [strptimeRun_Y_pad _ y hy, strptimeRun_dash, strptimeRun_m_pad _ mo hmo,
      strptimeRun_dash, strptimeRun_d_pad _ d hd, strptimeRun_space,
      strptimeRun_H_pad _ h hh, strptimeRun_colon, strptimeRun_M_pad _ mi hmi,
      strptimeRun_colon, strptimeRun_S_pad _ s hs]
  rfl

/-! ## The claims -/

/-- Claim C3: for every accessor (string, boolean, integer, list, datetime,
datetime-range), a key absent from the parameter mapping makes the call
return exactly the caller-supplied default without raising, in both the
default tier and the strict tier. -/
theorem missing_key_returns_default {α β : Type} (request : Req) (name : Str) (default : α)
    (type : Str → Except PyErr β) (format delim : Str) (align : Option Str)
    (aware strict : Bool) (h : request name = none) :
    get_str request name default = .inr default ∧
    get_boolean request name default = .inr default ∧
    get_int request name default strict = .ok (.inr default) ∧
    get_list request name default type delim strict = .ok (.inr default) ∧
    get_datetime request name default format align aware strict = .ok (.inr default) ∧
    get_datetime_range request name default format delim align aware strict
      = .ok (.missing default) := by
  unfold get_str get_boolean get_int get_list get_datetime get_datetime_range
  rw [h]
  exact ⟨rfl, rfl, rfl, rfl, rfl, rfl⟩

/-- Witness for C3 at an empty query string and the strict tier. -/
theorem missing_key_returns_default_witness :
    get_str reqEmpty "page".toList (7 : Nat) = .inr 7 ∧
    get_boolean reqEmpty "page".toList (7 : Nat) = .inr 7 ∧
    get_int reqEmpty "page".toList (7 : Nat) true = .ok (.inr 7) ∧
    get_list reqEmpty "page".toList (7 : Nat) pyIntConv ",".toList true = .ok (.inr 7) ∧
    get_datetime reqEmpty "page".toList (7 : Nat) fmtDefault none false true = .ok (.inr 7) ∧
    get_datetime_range reqEmpty "page".toList (7 : Nat) fmtDefault ",".toList none false true
      = .ok (.missing 7) :=
  missing_key_returns_default reqEmpty "page".toList 7 pyIntConv fmtDefault ",".toList
    none false true rfl

/-- The truthy and falsy word sets of the boolean accessor share no word. -/
theorem truthy_falsy_disjoint (w : Str) (ht : w ∈ truthyWords) (hf : w ∈ falsyWords) :
    False := by
  simp [truthyWords] at ht
  simp [falsyWords] at hf
  rcases ht with h1 | h1 | h1 | h1 | h1 <;> rcases hf with h2 | h2 | h2 | h2 | h2 <;>
    simp_all

/-- Claim C4: with a present value, the boolean accessor returns `true` when
the lowercased value is one of true/t/yes/y/1, `false` when it is one of
false/f/no/n/0, and the supplied default for every other present value. -/
theorem get_boolean_cases {α : Type} (request : Req) (name : Str) (default : α) (value : Str)
    (h : request name = some value) :
    (pyLower value ∈ truthyWords → get_boolean request name default = .inl true) ∧
    (pyLower value ∈ falsyWords → get_boolean request name default = .inl false) ∧
    (pyLower value ∉ truthyWords → pyLower value ∉ falsyWords →
      get_boolean request name default = .inr default) := by
  unfold get_boolean
  rw [h]
  refine ⟨fun ht => by simp [ht], fun hf => ?_, fun ht hf => by simp [ht, hf]⟩
  have ht : pyLower value ∉ truthyWords := fun ht => truthy_falsy_disjoint _ ht hf
  simp [ht, hf]

/-- Witness for C4 at the uppercase value TRUE. -/
theorem get_boolean_cases_witness :
    get_boolean (mkReq "TRUE".toList) "flag".toList (3 : Nat) = .inl true :=
  (get_boolean_cases (mkReq "TRUE".toList) "flag".toList 3 "TRUE".toList rfl).1 (by decide)

/-- Claim C5: the integer accessor parses a present value as a base-10
signed integer with no fractional part: on the value -42 it returns the
integer -42 in either tier; on the value 4.2 it returns the default in the
default tier and raises ValueError in the strict tier. -/
theorem get_int_spec {α : Type} (request : Req) (name : Str) (default : α) :
    (request name = some "-42".toList →
      ∀ strict, get_int request name default strict = .ok (.inl (-42))) ∧
    (request name = some "4.2".toList →
      get_int request name default false = .ok (.inr default) ∧
      get_int request name default true = .error .valueError) := by
  constructor
  · intro h strict
    unfold get_int
    rw [h]
    rfl
  · intro h
    unfold get_int
    rw [h]
    exact ⟨rfl, rfl⟩

/-- Witness for C5 at concrete requests carrying -42 and 4.2. -/
theorem get_int_spec_witness :
    get_int (mkReq "-42".toList) "n".toList (0 : Nat) false = .ok (.inl (-42)) ∧
    get_int (mkReq "4.2".toList) "n".toList (0 : Nat) false = .ok (.inr 0) ∧
    get_int (mkReq "4.2".toList) "n".toList (0 : Nat) true = .error .valueError :=
  ⟨(get_int_spec (mkReq "-42".toList) "n".toList 0).1 rfl false,
   ((get_int_spec (mkReq "4.2".toList) "n".toList 0).2 rfl).1,
   ((get_int_spec (mkReq "4.2".toList) "n".toList 0).2 rfl).2⟩

/-- In the default tier the list conversion loop keeps, in order, the
successful conversions of the stripped nonempty pieces. -/
theorem processItems_default {β : Type} (type : Str → Except PyErr β) (items : List Str) :
    processItems type false items
      = .ok (items.filterMap fun piece =>
          if pyStrip piece = [] then none else (type (pyStrip piece)).toOption) := by
  induction items with
  | nil => rfl
  | cons item items ih =>
    unfold processItems
    by_cases hstrip : pyStrip item = []
    · simp [hstrip, ih]
    · cases htype : type (pyStrip item) with
      | error e => simp [hstrip, htype, ih, Except.toOption]
      | ok v => simp [hstrip, htype, ih, Except.toOption, Except.map]

/-- Claim C6: the list accessor splits a present value on the delimiter,
strips each piece, drops empty pieces and converts the remaining pieces
with the element converter, in order.  With the integer element type and a
comma delimiter, the spaced input 1, 2,,3 yields the list 1, 2, 3 (see the
witness). -/
theorem get_list_spec {α β : Type} (request : Req) (name : Str) (value : Str) (default : α)
    (type : Str → Except PyErr β) (delim : Str)
    (h : request name = some value) (hdelim : delim ≠ []) :
    get_list request name default type delim false
      = .ok (.inl ((pySplit delim value).filterMap fun piece =>
          if pyStrip piece = [] then none else (type (pyStrip piece)).toOption)) := by
  unfold get_list
  rw [h]
  simp [pySplitE, hdelim, processItems_default, Except.map]

/-- Witness for C6: the spec's own example input. -/
theorem get_list_spec_witness :
    get_list (mkReq " 1, 2,,3 ".toList) "ids".toList (0 : Nat) pyIntConv ",".toList false
      = .ok (.inl [1, 2, 3]) :=
  (get_list_spec (mkReq " 1, 2,,3 ".toList) "ids".toList " 1, 2,,3 ".toList 0 pyIntConv
      ",".toList rfl (by decide)).trans (by rfl)

/-- The list conversion loop with the boolean element type never fails and
keeps only `true` elements: every retained piece is nonempty after
stripping, and the truthiness of a nonempty string is `true`. -/
theorem processItems_bool_all_true (strict : Bool) (items : List Str) :
    ∃ l, processItems pyBoolConv strict items = .ok l ∧ ∀ b ∈ l, b = true := by
  induction items with
  | nil => exact ⟨[], rfl, by simp⟩
  | cons item items ih =>
    obtain ⟨l, hl, hall⟩ := ih
    unfold processItems
    by_cases hstrip : pyStrip item = []
    · exact ⟨l, by simp [hstrip, hl], hall⟩
    · refine ⟨true :: l, ?_, ?_⟩
      · simp [hstrip, pyBoolConv, hl, Except.map]
      · intro b hb
        rcases List.mem_cons.mp hb with rfl | hb
        · rfl
        · exact hall b hb

/-- Claim C10: with the boolean element type, element conversion never
fails and every element of the returned list is `true`, in either tier --
including for pieces reading false, f or 0 (see the witness). -/
theorem get_list_bool_spec {α : Type} (request : Req) (name : Str) (value : Str) (default : α)
    (delim : Str) (strict : Bool)
    (h : request name = some value) (hdelim : delim ≠ []) :
    ∃ l, get_list request name default pyBoolConv delim strict = .ok (.inl l) ∧
      ∀ b ∈ l, b = true := by
  unfold get_list
  rw [h]
  obtain ⟨l, hl, hall⟩ := processItems_bool_all_true strict (pySplit delim value)
  exact ⟨l, by simp [pySplitE, hdelim, hl, Except.map], hall⟩

/-- Witness for C10 at the falsy-looking input false,f,0. -/
theorem get_list_bool_spec_witness :
    ∃ l, get_list (mkReq "false,f,0".toList) "flags".toList (0 : Nat) pyBoolConv ",".toList false
      = .ok (.inl l) ∧ ∀ b ∈ l, b = true :=
  get_list_bool_spec (mkReq "false,f,0".toList) "flags".toList "false,f,0".toList 0 ",".toList
    false rfl (by decide)

/-- Claim C7: in the default tier, every value the datetime-range accessor
returns for a present parameter is either a pair of two successfully parsed
timestamps or a pair of two copies of the supplied default, never a partial
pair; the remaining possibility is an uncaught error from the two-way
unpacking, which returns no value at all. -/
theorem range_never_partial {α : Type} (request : Req) (name : Str) (default : α)
    (format delim : Str) (align : Option Str) (aware : Bool) (value : Str)
    (h : request name = some value) :
    (∃ s e, get_datetime_range request name default format delim align aware false
        = .ok (.pair (.inl s) (.inl e))) ∨
    get_datetime_range request name default format delim align aware false
      = .ok (.pair (.inr default) (.inr default)) ∨
    (∃ err, get_datetime_range request name default format delim align aware false
        = .error err) := by
  unfold get_datetime_range
  rw [h]
  by_cases hc : pyContains delim value
  · simp only [hc, if_true]
    cases hs : pySplitE delim value with
    | error e => exact .inr (.inr ⟨e, rfl⟩)
    | ok items =>
      match items with
      | [] => exact .inr (.inr ⟨.valueError, rfl⟩)
      | [_] => exact .inr (.inr ⟨.valueError, rfl⟩)
      | _ :: _ :: _ :: _ => exact .inr (.inr ⟨.valueError, rfl⟩)
      | [sv, ev] =>
        cases hp : parser_datetime sv format align aware with
        | error e => exact .inr (.inl (by simp [hp]))
        | ok sdt =>
          cases hq : parser_datetime ev format align aware with
          | error e => exact .inr (.inl (by simp [hp, hq]))
          | ok edt => exact .inl ⟨sdt, edt, by simp [hp, hq]⟩
  · right; left
    simp [hc]

/-- Witness for C7 at the spec's example range value. -/
theorem range_never_partial_witness :
    (∃ s e, get_datetime_range (mkReq "2024-01-01 00:00:00,2024-01-31 23:59:59".toList)
        "range".toList (0 : Nat) fmtDefault ",".toList none false false
        = .ok (.pair (.inl s) (.inl e))) ∨
    get_datetime_range (mkReq "2024-01-01 00:00:00,2024-01-31 23:59:59".toList)
        "range".toList (0 : Nat) fmtDefault ",".toList none false false
      = .ok (.pair (.inr 0) (.inr 0)) ∨
    (∃ err, get_datetime_range (mkReq "2024-01-01 00:00:00,2024-01-31 23:59:59".toList)
        "range".toList (0 : Nat) fmtDefault ",".toList none false false = .error err) :=
  range_never_partial (mkReq "2024-01-01 00:00:00,2024-01-31 23:59:59".toList)
    "range".toList 0 fmtDefault ",".toList none false
    "2024-01-01 00:00:00,2024-01-31 23:59:59".toList rfl

/-- Claim C8: whenever the input parses against the format, the datetime
parser with align start returns the parsed timestamp with its hour, minute
and second overwritten to 00:00:00, and with align end overwritten to
23:59:59; the calendar fields are taken from the parsed value unchanged
(the awareness flag is set exactly when awareness is requested). -/
theorem parser_datetime_align {value format : Str} {aware : Bool} {parsed : PyDatetime}
    (h : strptime value format = some parsed) :
    parser_datetime value format (some "start".toList) aware
      = .ok { parsed with hour := 0, minute := 0, second := 0, aware := parsed.aware || aware }
    ∧ parser_datetime value format (some "end".toList) aware
      = .ok { parsed with hour := 23, minute := 59, second := 59, aware := parsed.aware || aware }
    := by
  unfold parser_datetime
  rw [h]
  constructor
  · cases aware <;> simp [pyReplaceTime, make_aware]
  · have hne : (some "end".toList = some "start".toList) = False := by simp
    cases aware <;> simp [pyReplaceTime, make_aware, hne]

/-- Witness for C8 at the spec's example datetime value. -/
theorem parser_datetime_align_witness :
    parser_datetime "2024-01-05 13:45:22".toList fmtDefault (some "start".toList) false
      = .ok ⟨2024, 1, 5, 0, 0, 0, false⟩ ∧
    parser_datetime "2024-01-05 13:45:22".toList fmtDefault (some "end".toList) false
      = .ok ⟨2024, 1, 5, 23, 59, 59, false⟩ :=
  @parser_datetime_align "2024-01-05 13:45:22".toList fmtDefault false
    ⟨2024, 1, 5, 13, 45, 22, false⟩ rfl

/-- Claim C1, what the code actually does: with alignment requested
(align passed as the string start), BOTH halves of the range are parsed
with that same align value, because the locals computed as start-for-the-
first-half and end-for-the-second-half are never passed to the parse
calls.  The second timestamp ends up at 00:00:00, not at 23:59:59 as the
claim states. -/
theorem range_align_applied_uniformly :
    get_datetime_range (mkReq "2024-01-05 13:45:22,2024-01-06 10:00:00".toList)
        "range".toList (0 : Nat) fmtDefault ",".toList (some "start".toList) false false
      = .ok (.pair (.inl ⟨2024, 1, 5, 0, 0, 0, false⟩) (.inl ⟨2024, 1, 6, 0, 0, 0, false⟩)) :=
  rfl

/-- Claim C2, what the code actually does: in the default tier, a present
value in which the delimiter occurs more than once makes the two-variable
unpacking of the split raise ValueError outside any try block, so the
error propagates instead of the default pair being substituted. -/
theorem range_unpack_raises_in_default_tier :
    get_datetime_range (mkReq "a,b,c".toList) "range".toList (0 : Nat) fmtDefault ",".toList
        none false false
      = .error .valueError :=
  rfl

/-- Claim C9, counterexample: with the format that renders only the year,
formatting the sample timestamp 2024-03-05 12:30:45 and parsing the result
back does not return the original timestamp (month, day and time of day
fall back to the parser defaults), so the round trip fails for an
arbitrary format string. -/
theorem roundtrip_fails_for_year_only_format :
    parser_datetime (strftime dtSample "%Y".toList) "%Y".toList none false ≠ .ok dtSample := by
  decide

/-- Claim C9, amended: for the library's default format, formatting any
valid naive timestamp and parsing the result back with the datetime parser
(no alignment, no timezone attachment) returns a timestamp equal to the
original. -/
theorem parser_datetime_roundtrip (dt : PyDatetime)
    (hy1 : 1 ≤ dt.year) (hy2 : dt.year ≤ 9999) (hm1 : 1 ≤ dt.month) (hm2 : dt.month ≤ 12)
    (hd1 : 1 ≤ dt.day) (hd2 : dt.day ≤ daysInMonth dt.year dt.month)
    (hh : dt.hour ≤ 23) (hmi : dt.minute ≤ 59) (hs : dt.second ≤ 59)
    (hn : dt.aware = false) :
    parser_datetime (strftime dt fmtDefault) fmtDefault none false = .ok dt := by
  obtain ⟨y, mo, d, h, mi, s, aw⟩ := dt
  simp only at hy1 hy2 hm1 hm2 hd1 hd2 hh hmi hs hn
  subst hn
  have hfmt : strftime ⟨y, mo, d, h, mi, s, false⟩ fmtDefault
      = pad4 y ++ '-' :: (pad2 mo ++ '-' :: (pad2 d ++ ' ' :: (pad2 h ++ ':' ::
          (pad2 mi ++ ':' :: (pad2 s ++ []))))) := rfl
  have hdm : daysInMonth y mo ≤ 31 := by
    unfold daysInMonth
    split
    · split <;> omega
    · split <;> omega
  unfold parser_datetime strptime
  rw [hfmt, strptimeRun_default_format y mo d h mi s hy2 (by omega) (by omega) (by omega)
      (by omega) (by omega)]
  have hv : validFields ⟨y, mo, d, h, mi, s, false⟩ = true := by
    simp [validFields, hy1, hy2, hm1, hm2, hd1, hd2, hh, hmi, hs]
  simp [hv]

/-- Witness for the amended C9 at the sample timestamp. -/
theorem parser_datetime_roundtrip_witness :
    parser_datetime (strftime dtSample fmtDefault) fmtDefault none false = .ok dtSample :=
  parser_datetime_roundtrip dtSample (by decide) (by decide) (by decide) (by decide)
    (by decide) (by decide) (by decide) (by decide) (by decide) (by decide)
